import Mathlib

/-!
Verification of the jarvis-advisor alert and compliance engine.

Shallow embedding of the alert detection, proactive-nudge aggregation,
compliance scoring and dismissal-store subsystems of the repository
(`services/alerts_service.py`, `services/compliance_service.py`,
`services/dismissal_service.py`, `data/schema.py`), together with proofs
of the specified properties.

Conventions of the embedding:
* Python `datetime.date` values are modelled by the `Date` structure
  (year/month/day as integers); `date.toordinal`-based subtraction is
  modelled by `date_sub`, and Python's lexicographic date comparison by
  `date_lt`.  `date.replace(year=...)` validates the day against the
  target month and raises `ValueError` on failure; this is modelled by
  `replace_year` returning `Option Date`, and the raising detector is
  `Except`-valued.
* Python floats only ever hold exactly representable values in the code
  paths modelled here (integer-valued day counts divided by integer
  constants, compared against integer thresholds); they are modelled by
  `ℚ`.
* Python `set`/`dict` arguments are modelled by lists with membership
  tests; iteration order of `dict` (insertion order) is preserved by the
  association-list encodings.
* `Alert.description` and `Alert.related_data` are presentation payload
  never consumed by any computation modelled here and are omitted from
  the `Alert` record; all other `Alert` fields are carried.
-/

/-- Proleptic Gregorian calendar date, as CPython's `datetime.date`. -/
structure Date where
  year : Int
  month : Int
  day : Int
  deriving DecidableEq, Repr

/-- Gregorian leap-year rule (as CPython `calendar.isleap`). -/
def isLeapYear (y : Int) : Bool :=
  y % 4 == 0 && (y % 100 != 0 || y % 400 == 0)

/-- Number of days in a month (used by `date.replace` validation). -/
def days_in_month (y m : Int) : Int :=
  if m == 2 then (if isLeapYear y then 29 else 28)
  else if m == 4 || m == 6 || m == 9 || m == 11 then 30
  else 31

/-- Days in the given year strictly before the first of the given month. -/
def days_before_month (y m : Int) : Int :=
  let base : Int :=
    if m ≤ 1 then 0 else if m = 2 then 31 else if m = 3 then 59
    else if m = 4 then 90 else if m = 5 then 120 else if m = 6 then 151
    else if m = 7 then 181 else if m = 8 then 212 else if m = 9 then 243
    else if m = 10 then 273 else if m = 11 then 304 else 334
  base + (if 2 < m && isLeapYear y then 1 else 0)

/-- CPython `date.toordinal`: day number with 0001-01-01 as day 1. -/
def Date.toordinal (d : Date) : Int :=
  365 * (d.year - 1) + (d.year - 1).ediv 4 - (d.year - 1).ediv 100
    + (d.year - 1).ediv 400 + days_before_month d.year d.month + d.day

/-- Python date subtraction `(a - b).days`. -/
def date_sub (a b : Date) : Int :=
  a.toordinal - b.toordinal

/-- Python date comparison `a < b` (lexicographic on (year, month, day)). -/
def date_lt (a b : Date) : Bool :=
  if a.year != b.year then a.year < b.year
  else if a.month != b.month then a.month < b.month
  else a.day < b.day

/-- Python `d.replace(year=y)`: validates the day against the target
month (raising `ValueError`, here `none`, for 29 February in a non-leap
year). -/
def replace_year (d : Date) (y : Int) : Option Date :=
  if d.day ≤ days_in_month y d.month then some ⟨y, d.month, d.day⟩ else none

/-- Python `date.max` = 9999-12-31, used as the missing-due-date sort key. -/
def date_max : Date := ⟨9999, 12, 31⟩

/-- Alert priorities (`AlertPriority` enum consumed by the services).
Modelled from the spec: `priority ∈ {urgent, high, medium, low}` with the
strict total order urgent > high > medium > low. -/
inductive AlertPriority where
  | urgent
  | high
  | medium
  | low
  deriving DecidableEq, Repr

/-- Priority rank used as a sort key.  Modelled from the spec: output is
sorted "by priority rank ascending — urgent first". -/
def AlertPriority.priority_order : AlertPriority → Int
  | .urgent => 0
  | .high => 1
  | .medium => 2
  | .low => 3

/-- Alert categories (`AlertType` enum consumed by the services).
Modelled from the spec: the enumerated categories emitted by the ten
detection rules. -/
inductive AlertType where
  | birthday
  | policy_renewal
  | policy_maturity
  | follow_up_due
  | follow_up_overdue
  | annual_review_due
  | annual_review_overdue
  | no_contact
  | life_event
  | risk_profile_stale
  | concern_needs_attention
  | retirement_approaching
  deriving DecidableEq, Repr

/-- The `.value` string of each `AlertType` member. -/
def AlertType.value : AlertType → String
  | .birthday => "birthday"
  | .policy_renewal => "policy_renewal"
  | .policy_maturity => "policy_maturity"
  | .follow_up_due => "follow_up_due"
  | .follow_up_overdue => "follow_up_overdue"
  | .annual_review_due => "annual_review_due"
  | .annual_review_overdue => "annual_review_overdue"
  | .no_contact => "no_contact"
  | .life_event => "life_event"
  | .risk_profile_stale => "risk_profile_stale"
  | .concern_needs_attention => "concern_needs_attention"
  | .retirement_approaching => "retirement_approaching"

/-- Embedding of `alert.alert_type.value.replace("_", " ").title()` as computed by
`_build_aggregate_summary`. -/
def AlertType.label : AlertType → String
  | .birthday => "Birthday"
  | .policy_renewal => "Policy Renewal"
  | .policy_maturity => "Policy Maturity"
  | .follow_up_due => "Follow Up Due"
  | .follow_up_overdue => "Follow Up Overdue"
  | .annual_review_due => "Annual Review Due"
  | .annual_review_overdue => "Annual Review Overdue"
  | .no_contact => "No Contact"
  | .life_event => "Life Event"
  | .risk_profile_stale => "Risk Profile Stale"
  | .concern_needs_attention => "Concern Needs Attention"
  | .retirement_approaching => "Retirement Approaching"

/-- The alert value object produced by the detector.  Modelled from the
spec: the `Alert` model is imported by the services from `data.schema`
but its class definition is not present under `src/`; fields follow §3
of the spec (description and the free-form `related_data` bag are
presentation payload not consumed by any modelled computation and are
omitted). -/
structure Alert where
  id : String
  client_id : String
  client_name : String
  alert_type : AlertType
  priority : AlertPriority
  title : String
  due_date : Option Date
  days_until_due : Option Int
  deriving DecidableEq, Repr

/-- Embedding of `FollowUpStatus` enum from `data/schema.py`. -/
inductive FollowUpStatus where
  | pending
  | completed
  | overdue
  deriving DecidableEq, Repr

/-- Embedding of `ConcernStatus` enum from `data/schema.py`. -/
inductive ConcernStatus where
  | active
  | addressed
  | monitoring
  deriving DecidableEq, Repr

/-- Embedding of `ConcernSeverity` enum from `data/schema.py` (the detector compares
`concern.severity.value == "high"`). -/
inductive ConcernSeverity where
  | low
  | medium
  | high
  deriving DecidableEq, Repr

/-- The `.value` string of a `ConcernSeverity` member. -/
def ConcernSeverity.value : ConcernSeverity → String
  | .low => "low"
  | .medium => "medium"
  | .high => "high"

/-- Embedding of `LifeEventType` enum from `data/schema.py`. -/
inductive LifeEventType where
  | birthday
  | wedding
  | birth
  | retirement
  | anniversary
  | graduation
  | new_job
  | house_purchase
  | death_in_family
  | divorce
  | inheritance
  | health_issue
  | other
  deriving DecidableEq, Repr

/-- The `.value` string of a `LifeEventType` member. -/
def LifeEventType.value : LifeEventType → String
  | .birthday => "birthday"
  | .wedding => "wedding"
  | .birth => "birth"
  | .retirement => "retirement"
  | .anniversary => "anniversary"
  | .graduation => "graduation"
  | .new_job => "new_job"
  | .house_purchase => "house_purchase"
  | .death_in_family => "death_in_family"
  | .divorce => "divorce"
  | .inheritance => "inheritance"
  | .health_issue => "health_issue"
  | .other => "other"

/-- Embedding of `PolicyType` enum from `data/schema.py`. -/
inductive PolicyType where
  | pension
  | isa
  | gia
  | life_insurance
  | critical_illness
  | income_protection
  | mortgage
  | annuity
  deriving DecidableEq, Repr

/-- The `.value` string of a `PolicyType` member. -/
def PolicyType.value : PolicyType → String
  | .pension => "pension"
  | .isa => "isa"
  | .gia => "gia"
  | .life_insurance => "life_insurance"
  | .critical_illness => "critical_illness"
  | .income_protection => "income_protection"
  | .mortgage => "mortgage"
  | .annuity => "annuity"

/-- Embedding of `policy.policy_type.value.replace('_', ' ').title()` as used in alert
titles. -/
def PolicyType.title_label : PolicyType → String
  | .pension => "Pension"
  | .isa => "Isa"
  | .gia => "Gia"
  | .life_insurance => "Life Insurance"
  | .critical_illness => "Critical Illness"
  | .income_protection => "Income Protection"
  | .mortgage => "Mortgage"
  | .annuity => "Annuity"

/-- Embedding of `FamilyMember` from `data/schema.py` (fields consumed by the
services). -/
structure FamilyMember where
  name : String
  relationship : String
  date_of_birth : Option Date
  deriving DecidableEq, Repr

/-- Embedding of `LifeEvent` from `data/schema.py` (fields consumed by the services). -/
structure LifeEvent where
  event_type : LifeEventType
  event_date : Date
  description : String
  related_person : Option String
  deriving DecidableEq, Repr

/-- Embedding of `Concern` from `data/schema.py` (fields consumed by the services). -/
structure Concern where
  topic : String
  details : String
  severity : ConcernSeverity
  date_raised : Date
  status : ConcernStatus
  last_discussed : Option Date
  deriving DecidableEq, Repr

/-- Embedding of `Policy` from `data/schema.py` (fields consumed by the services). -/
structure Policy where
  policy_type : PolicyType
  provider : String
  policy_number : Option String
  current_value : Option ℚ
  renewal_date : Option Date
  maturity_date : Option Date
  deriving DecidableEq, Repr

/-- Embedding of `RiskProfile` from `data/schema.py` (the services consume only
`last_assessed`; `last_assessed` is a required field there, so the
truthiness guard `client.risk_profile and client.risk_profile.last_assessed`
reduces to presence of the profile). -/
structure RiskProfile where
  last_assessed : Date
  deriving DecidableEq, Repr

/-- Embedding of `MeetingNote` from `data/schema.py` (the services consume only
`meeting_date`). -/
structure MeetingNote where
  meeting_date : Date
  deriving DecidableEq, Repr

/-- Embedding of `FollowUp` from `data/schema.py` (fields consumed by the services). -/
structure FollowUp where
  commitment : String
  deadline : Date
  status : FollowUpStatus
  deriving DecidableEq, Repr

/-- Embedding of `Interaction` from `data/schema.py` (the services consume only
`interaction_date`; the time-of-day component of the Python `datetime`
is dropped, day counts are unchanged for the modelled computations). -/
structure Interaction where
  interaction_date : Date
  deriving DecidableEq, Repr

/-- Embedding of `ComplianceRecord` from `data/schema.py` (fields consumed by the
services). -/
structure ComplianceRecord where
  last_annual_review : Option Date
  next_review_due : Option Date
  suitability_confirmed : Bool
  suitability_date : Option Date
  value_delivered : List String
  deriving DecidableEq, Repr

/-- Embedding of `Client` from `data/schema.py` (fields consumed by the alert and
compliance services). -/
structure Client where
  id : String
  title : String
  first_name : String
  last_name : String
  date_of_birth : Date
  family_members : List FamilyMember
  life_events : List LifeEvent
  concerns : List Concern
  policies : List Policy
  total_portfolio_value : Option ℚ
  risk_profile : Option RiskProfile
  meeting_notes : List MeetingNote
  follow_ups : List FollowUp
  interactions : List Interaction
  compliance : ComplianceRecord
  deriving DecidableEq, Repr

/-- Embedding of `Client.full_name` property. -/
def Client.full_name (c : Client) : String :=
  c.title ++ " " ++ c.first_name ++ " " ++ c.last_name

/-- Embedding of `Client.age` property: completed years relative to `today`. -/
def Client.age (today : Date) (c : Client) : Int :=
  today.year - c.date_of_birth.year -
    (if today.month < c.date_of_birth.month
        || (today.month == c.date_of_birth.month
            && today.day < c.date_of_birth.day)
     then 1 else 0)

/-- First maximal element of a nonempty date list (Python `max`). -/
def latest_date (d : Date) (l : List Date) : Date :=
  l.foldl (fun acc x => if date_lt acc x then x else acc) d

/-- Embedding of `Client.days_since_last_contact` property: days since the most recent
interaction, `none` when there are no interactions. -/
def Client.days_since_last_contact (today : Date) (c : Client) : Option Int :=
  match c.interactions.map Interaction.interaction_date with
  | [] => none
  | d :: ds => some (date_sub today (latest_date d ds))

/-! ## Alert detector (`services/alerts_service.py`, detection methods) -/

/-- Python `x or default` on an optional string (`None` and the empty
string are falsy). -/
def py_or_string (o : Option String) (default : String) : String :=
  match o with
  | some s => if s = "" then default else s
  | none => default

/-- Zero-padded two-digit rendering of a day/month number. -/
def pad2 (n : Int) : String :=
  if n < 10 then "0" ++ toString n else toString n

/-- Python `str(date)`: ISO `YYYY-MM-DD` (years in use are four-digit). -/
def Date.iso (d : Date) : String :=
  toString d.year ++ "-" ++ pad2 d.month ++ "-" ++ pad2 d.day

/-- Lines 85–87 / 118–120 of `alerts_service.py`: this-year occurrence of
a birthday, rolled to next year when already passed.  Each
`date.replace(year=...)` may raise (`ValueError` for 29 February into a
non-leap year), modelled by `Except.error`. -/
def _resolve_birthday (today : Date) (dob : Date) : Except Unit Date :=
  match replace_year dob today.year with
  | none => .error ()
  | some b =>
    if date_lt b today then
      match replace_year b (today.year + 1) with
      | none => .error ()
      | some b2 => .ok b2
    else .ok b

/-- Family-member part of `_check_birthday` (the `for member in
client.family_members` loop). -/
def _check_family_birthdays (today : Date) (c : Client) :
    List FamilyMember → Except Unit (List Alert)
  | [] => .ok []
  | m :: ms => do
    let head ←
      match m.date_of_birth with
      | none => Except.ok []
      | some dob => do
        let member_bday ← _resolve_birthday today dob
        let days_until := date_sub member_bday today
        Except.ok (if 0 ≤ days_until ∧ days_until ≤ 7 then
          [{ id := "fam-bday-" ++ c.id ++ "-" ++ m.name ++ "-"
                ++ toString member_bday.year,
             client_id := c.id,
             client_name := c.full_name,
             alert_type := .birthday,
             priority := .low,
             title := "👨‍👩‍👧 " ++ m.name ++ "\x27s Birthday ("
                ++ m.relationship ++ ")",
             due_date := some member_bday,
             days_until_due := some days_until }]
        else [])
    let rest ← _check_family_birthdays today c ms
    return head ++ rest

/-- Embedding of `_check_birthday`: the client's own birthday within a 14-day forward
window (`birthday_days_ahead`), plus family members within 7 days. -/
def _check_birthday (today : Date) (c : Client) : Except Unit (List Alert) := do
  let birthday_this_year ← _resolve_birthday today c.date_of_birth
  let days_until := date_sub birthday_this_year today
  let self_alerts :=
    if 0 ≤ days_until ∧ days_until ≤ 14 then
      let age := today.year - c.date_of_birth.year
        + (if today.year < birthday_this_year.year then 1 else 0)
      let priority : AlertPriority := if days_until ≤ 3 then .high else .medium
      let _ := age
      [{ id := "bday-" ++ c.id ++ "-" ++ toString birthday_this_year.year,
         client_id := c.id,
         client_name := c.full_name,
         alert_type := .birthday,
         priority := priority,
         title := "🎂 " ++ c.first_name ++ "\x27s Birthday"
            ++ (if days_until = 0 then " Today!"
                else " in " ++ toString days_until ++ " days"),
         due_date := some birthday_this_year,
         days_until_due := some days_until }]
    else []
  let fam ← _check_family_birthdays today c c.family_members
  return self_alerts ++ fam

/-- The age announced by the birthday rule (lines 92–94: `age = today.year
- dob.year`, incremented when the computed birthday rolled into next
year).  It appears in the alert description and `related_data`, which the
`Alert` record omits; it is exposed here so the rollover property can be
stated. -/
def _birthday_alert_age (today : Date) (dob : Date) (birthday_this_year : Date) : Int :=
  today.year - dob.year + (if today.year < birthday_this_year.year then 1 else 0)

/-- Embedding of `_check_policy_renewals`: overdue renewals are urgent; upcoming ones
within 30 days (`policy_renewal_days_ahead`) are high (≤7 days) or
medium. -/
def _check_policy_renewals (today : Date) (c : Client) : List Alert :=
  (c.policies.map (fun p =>
    match p.renewal_date with
    | none => []
    | some rd =>
      let days_until := date_sub rd today
      if days_until < 0 then
        [{ id := "renewal-overdue-" ++ c.id ++ "-"
              ++ py_or_string p.policy_number p.policy_type.value,
           client_id := c.id,
           client_name := c.full_name,
           alert_type := .policy_renewal,
           priority := .urgent,
           title := "⚠️ Overdue: " ++ p.policy_type.title_label ++ " Renewal",
           due_date := some rd,
           days_until_due := some days_until }]
      else if 0 ≤ days_until ∧ days_until ≤ 30 then
        [{ id := "renewal-" ++ c.id ++ "-"
              ++ py_or_string p.policy_number p.policy_type.value,
           client_id := c.id,
           client_name := c.full_name,
           alert_type := .policy_renewal,
           priority := if days_until ≤ 7 then .high else .medium,
           title := "📋 " ++ p.policy_type.title_label ++ " Renewal in "
              ++ toString days_until ++ " days",
           due_date := some rd,
           days_until_due := some days_until }]
      else [])).flatten

/-- Embedding of `_check_policy_maturities`: maturities within 60 days
(`policy_maturity_days_ahead`) are high (≤14 days) or medium; no overdue
branch. -/
def _check_policy_maturities (today : Date) (c : Client) : List Alert :=
  (c.policies.map (fun p =>
    match p.maturity_date with
    | none => []
    | some md =>
      let days_until := date_sub md today
      if 0 ≤ days_until ∧ days_until ≤ 60 then
        [{ id := "maturity-" ++ c.id ++ "-"
              ++ py_or_string p.policy_number p.policy_type.value,
           client_id := c.id,
           client_name := c.full_name,
           alert_type := .policy_maturity,
           priority := if days_until ≤ 14 then .high else .medium,
           title := "💰 " ++ p.policy_type.title_label ++ " Maturing",
           due_date := some md,
           days_until_due := some days_until }]
      else [])).flatten

/-- Embedding of `_check_follow_ups`: pending follow-ups past deadline are urgent
(`follow_up_overdue`); pending ones within the 3-day forward window
(`follow_up_warning_days`) are high when due today, else medium
(`follow_up_due`). -/
def _check_follow_ups (today : Date) (c : Client) : List Alert :=
  (c.follow_ups.map (fun f =>
    if f.status ≠ FollowUpStatus.pending then []
    else
      let days_until := date_sub f.deadline today
      if days_until < 0 then
        [{ id := "followup-overdue-" ++ c.id ++ "-" ++ f.commitment.take 20,
           client_id := c.id,
           client_name := c.full_name,
           alert_type := .follow_up_overdue,
           priority := .urgent,
           title := "⚠️ Overdue Follow-up: " ++ f.commitment.take 40 ++ "...",
           due_date := some f.deadline,
           days_until_due := some days_until }]
      else if 0 ≤ days_until ∧ days_until ≤ 3 then
        [{ id := "followup-" ++ c.id ++ "-" ++ f.commitment.take 20,
           client_id := c.id,
           client_name := c.full_name,
           alert_type := .follow_up_due,
           priority := if days_until = 0 then .high else .medium,
           title := "📌 Follow-up Due"
              ++ (if days_until = 0 then " Today"
                  else " in " ++ toString days_until ++ " days"),
           due_date := some f.deadline,
           days_until_due := some days_until }]
      else [])).flatten

/-- Embedding of `_check_annual_review`: overdue reviews are urgent
(`annual_review_overdue`); reviews within 30 days
(`annual_review_warning_days`) are high (≤7 days) or medium
(`annual_review_due`); skipped when `next_review_due` is unset. -/
def _check_annual_review (today : Date) (c : Client) : List Alert :=
  match c.compliance.next_review_due with
  | none => []
  | some nrd =>
    let days_until := date_sub nrd today
    if days_until < 0 then
      [{ id := "review-overdue-" ++ c.id,
         client_id := c.id,
         client_name := c.full_name,
         alert_type := .annual_review_overdue,
         priority := .urgent,
         title := "🚨 Annual Review OVERDUE",
         due_date := some nrd,
         days_until_due := some days_until }]
    else if 0 ≤ days_until ∧ days_until ≤ 30 then
      [{ id := "review-" ++ c.id,
         client_id := c.id,
         client_name := c.full_name,
         alert_type := .annual_review_due,
         priority := if days_until ≤ 7 then .high else .medium,
         title := "📊 Annual Review Due in " ++ toString days_until ++ " days",
         due_date := some nrd,
         days_until_due := some days_until }]
    else []

/-- Embedding of `_check_no_contact`: fires when `days_since_last_contact` is truthy
(non-`None` and non-zero, per Python `if days_since and ...`) and at
least 90 days (`no_contact_days`); high from 180 days, else medium. -/
def _check_no_contact (today : Date) (c : Client) : List Alert :=
  match c.days_since_last_contact today with
  | none => []
  | some days_since =>
    if days_since ≠ 0 ∧ 90 ≤ days_since then
      [{ id := "no-contact-" ++ c.id,
         client_id := c.id,
         client_name := c.full_name,
         alert_type := .no_contact,
         priority := if 180 ≤ days_since then .high else .medium,
         title := "📞 No Contact for " ++ toString days_since ++ " days",
         due_date := some today,
         days_until_due := some 0 }]
    else []

/-- Emoji chosen for a life event type (default 📅). -/
def life_event_emoji : LifeEventType → String
  | .retirement => "🎉"
  | .wedding => "💒"
  | .birth => "👶"
  | .graduation => "🎓"
  | .house_purchase => "🏠"
  | .new_job => "💼"
  | .anniversary => "💍"
  | _ => "📅"

/-- Embedding of `event.event_type.value.replace('_', ' ').title()` as used in life
event titles. -/
def LifeEventType.title_label : LifeEventType → String
  | .birthday => "Birthday"
  | .wedding => "Wedding"
  | .birth => "Birth"
  | .retirement => "Retirement"
  | .anniversary => "Anniversary"
  | .graduation => "Graduation"
  | .new_job => "New Job"
  | .house_purchase => "House Purchase"
  | .death_in_family => "Death In Family"
  | .divorce => "Divorce"
  | .inheritance => "Inheritance"
  | .health_issue => "Health Issue"
  | .other => "Other"

/-- Embedding of `_check_life_events`: events within 30 days are high (≤7 days) or
medium. -/
def _check_life_events (today : Date) (c : Client) : List Alert :=
  (c.life_events.map (fun e =>
    let days_until := date_sub e.event_date today
    if 0 ≤ days_until ∧ days_until ≤ 30 then
      [{ id := "event-" ++ c.id ++ "-" ++ e.event_type.value ++ "-"
            ++ e.event_date.iso,
         client_id := c.id,
         client_name := c.full_name,
         alert_type := .life_event,
         priority := if days_until ≤ 7 then .high else .medium,
         title := life_event_emoji e.event_type ++ " "
            ++ e.event_type.title_label
            ++ (if days_until = 0 then " Today!"
                else " in " ++ toString days_until ++ " days"),
         due_date := some e.event_date,
         days_until_due := some days_until }]
    else [])).flatten

/-- Embedding of `_check_risk_profile`: fires when the profile was last assessed at
least one year ago (`years_since = days / 365 ≥ 1`, float division
modelled exactly in `ℚ`). -/
def _check_risk_profile (today : Date) (c : Client) : List Alert :=
  match c.risk_profile with
  | none => []
  | some rp =>
    let years_since : ℚ := ((date_sub today rp.last_assessed : Int) : ℚ) / 365
    if 1 ≤ years_since then
      [{ id := "risk-stale-" ++ c.id,
         client_id := c.id,
         client_name := c.full_name,
         alert_type := .risk_profile_stale,
         priority := .medium,
         title := "📈 Risk Profile Needs Update",
         due_date := some today,
         days_until_due := some 0 }]
    else []

/-- Embedding of `_check_concerns`: active high-severity concerns never discussed, or
last discussed more than 30 days ago. -/
def _check_concerns (today : Date) (c : Client) : List Alert :=
  (c.concerns.map (fun concern =>
    if concern.status = ConcernStatus.active ∧ concern.severity.value = "high" then
      let fire :=
        match concern.last_discussed with
        | none => true
        | some ld => decide (30 < date_sub today ld)
      if fire then
        [{ id := "concern-" ++ c.id ++ "-" ++ concern.topic.take 20,
           client_id := c.id,
           client_name := c.full_name,
           alert_type := .concern_needs_attention,
           priority := .high,
           title := "😟 High Concern: " ++ concern.topic,
           due_date := some today,
           days_until_due := some 0 }]
      else []
    else [])).flatten

/-- Embedding of `_check_retirement`: clients within 2 years
(`retirement_warning_years`) of the fixed retirement age 67.  The due
date `dob.replace(year=dob.year + 67)` may raise for a 29 February date
of birth when the target year is not a leap year. -/
def _check_retirement (today : Date) (c : Client) : Except Unit (List Alert) :=
  let years_to_retirement := 67 - c.age today
  if 0 < years_to_retirement ∧ years_to_retirement ≤ 2 then
    match replace_year c.date_of_birth (c.date_of_birth.year + 67) with
    | none => .error ()
    | some due =>
      .ok [{ id := "retirement-" ++ c.id,
             client_id := c.id,
             client_name := c.full_name,
             alert_type := .retirement_approaching,
             priority := .high,
             title := "🎯 Retirement Approaching ("
                ++ toString years_to_retirement ++ " years)",
             due_date := some due,
             days_until_due := some (years_to_retirement * 365) }]
  else .ok []

/-- All ten detection rules for one client, in source order. -/
def _client_alerts (today : Date) (c : Client) : Except Unit (List Alert) := do
  let bday ← _check_birthday today c
  let retire ← _check_retirement today c
  return bday
    ++ _check_policy_renewals today c
    ++ _check_policy_maturities today c
    ++ _check_follow_ups today c
    ++ _check_annual_review today c
    ++ _check_no_contact today c
    ++ _check_life_events today c
    ++ _check_risk_profile today c
    ++ _check_concerns today c
    ++ retire

/-- Lexicographic order on integer pairs (Python tuple comparison). -/
def pair_le (x y : Int × Int) : Prop :=
  x.1 < y.1 ∨ (x.1 = y.1 ∧ x.2 ≤ y.2)

instance : ∀ x y, Decidable (pair_le x y) := fun x y => by
  unfold pair_le
  infer_instance

/-- Sort key of `generate_all_alerts`: `(a.priority_order, a.due_date or
date.max)` (dates compared by ordinal). -/
def generate_sort_key (a : Alert) : Int × Int :=
  (a.priority.priority_order, (a.due_date.getD date_max).toordinal)

/-- Comparison used for the final sort in `generate_all_alerts`. -/
def generate_le (a b : Alert) : Prop :=
  pair_le (generate_sort_key a) (generate_sort_key b)

instance : ∀ a b, Decidable (generate_le a b) := fun a b => by
  unfold generate_le
  infer_instance

/-- Unsorted union of per-client alerts (the `alerts.extend(...)` loop of
`generate_all_alerts`). -/
def all_alerts_unsorted (today : Date) : List Client → Except Unit (List Alert)
  | [] => .ok []
  | c :: cs => do
    let a ← _client_alerts today c
    let rest ← all_alerts_unsorted today cs
    return a ++ rest

/-- Embedding of `generate_all_alerts`: union of the ten rules over all clients,
sorted by `(priority_order, due_date or date.max)`.  `Except`-valued
because `_check_birthday` / `_check_retirement` can raise `ValueError`
out of `date.replace` (aborting the whole scan, as in Python). -/
def generate_all_alerts (today : Date) (clients : List Client) :
    Except Unit (List Alert) := do
  let alerts ← all_alerts_unsorted today clients
  return List.insertionSort generate_le alerts

/-! ## Alert aggregator and proactive nudge
(`services/alerts_service.py`, summary and nudge methods) -/

/-- Embedding of `_count_by_type` inner step: ordered-dict increment
(`counts[type_name] = counts.get(type_name, 0) + 1`). -/
def _incr_count (k : String) : List (String × Nat) → List (String × Nat)
  | [] => [(k, 1)]
  | (k0, n) :: rest =>
    if k0 = k then (k0, n + 1) :: rest else (k0, n) :: _incr_count k rest

/-- Embedding of `_count_by_type`: counts of alerts by `alert_type.value`, keyed in
first-occurrence order. -/
def _count_by_type (alerts : List Alert) : List (String × Nat) :=
  alerts.foldl (fun counts a => _incr_count a.alert_type.value counts) []

/-- Result record of `get_alert_summary`. -/
structure AlertSummary where
  total : Nat
  urgent : Nat
  high : Nat
  medium : Nat
  low : Nat
  by_type : List (String × Nat)
  due_today : Nat
  overdue : Nat
  deriving DecidableEq, Repr

/-- Embedding of `get_alert_summary`: dashboard counts over the alert list it is
given.  Note it performs no dismissal or inactive filtering itself. -/
def get_alert_summary (today : Date) (alerts : List Alert) : AlertSummary where
  total := alerts.length
  urgent := (alerts.filter (fun a => a.priority = AlertPriority.urgent)).length
  high := (alerts.filter (fun a => a.priority = AlertPriority.high)).length
  medium := (alerts.filter (fun a => a.priority = AlertPriority.medium)).length
  low := (alerts.filter (fun a => a.priority = AlertPriority.low)).length
  by_type := _count_by_type alerts
  due_today := (alerts.filter (fun a => a.due_date = some today)).length
  overdue := (alerts.filter (fun a =>
    match a.due_date with
    | some d => date_lt d today
    | none => false)).length

/-- Sort key of the RED tier and of `get_client_nudges`:
`(a.days_until_due or -999, a.priority_order)`.  Python `or` treats both
`None` and `0` as falsy, so a zero day count also becomes `-999`. -/
def red_sort_key (a : Alert) : Int × Int :=
  ((match a.days_until_due with
    | some d => if d = 0 then -999 else d
    | none => -999),
   a.priority.priority_order)

/-- Comparison for the RED tier sort. -/
def red_le (a b : Alert) : Prop :=
  pair_le (red_sort_key a) (red_sort_key b)

instance : ∀ a b, Decidable (red_le a b) := fun a b => by
  unfold red_le
  infer_instance

/-- Sort key of the YELLOW tier: `(a.days_until_due or 999,
a.priority_order)` (same Python truthiness: `0` becomes `999`). -/
def yellow_sort_key (a : Alert) : Int × Int :=
  ((match a.days_until_due with
    | some d => if d = 0 then 999 else d
    | none => 999),
   a.priority.priority_order)

/-- Comparison for the YELLOW tier sort. -/
def yellow_le (a b : Alert) : Prop :=
  pair_le (yellow_sort_key a) (yellow_sort_key b)

instance : ∀ a b, Decidable (yellow_le a b) := fun a b => by
  unfold yellow_le
  infer_instance

/-- Embedding of `_build_aggregate_summary` inner step: ordered-dict append
(`summary[type_name].append(alert.client_name)`). -/
def _add_to_summary (label name : String) :
    List (String × List String) → List (String × List String)
  | [] => [(label, [name])]
  | (k, v) :: rest =>
    if k = label then (k, v ++ [name]) :: rest
    else (k, v) :: _add_to_summary label name rest

/-- Embedding of `_build_aggregate_summary`: map of human-readable category label to
client names, keyed in first-occurrence order. -/
def _build_aggregate_summary (alerts : List Alert) :
    List (String × List String) :=
  alerts.foldl (fun s a => _add_to_summary a.alert_type.label a.client_name s) []

/-- Time-of-day greeting (`greetings` dict; unknown buckets fall back to
the morning greeting). -/
def greeting_for (time_of_day : String) : String :=
  if time_of_day = "morning" then
    "☀️ Good morning! Here\x27s what needs your attention today:"
  else if time_of_day = "afternoon_early" then
    "👋 Good afternoon! Quick update on what\x27s urgent:"
  else if time_of_day = "afternoon" then
    "☕ Afternoon check-in — here\x27s what\x27s pressing:"
  else if time_of_day = "evening" then
    "🌆 Good evening! Before you wrap up:"
  else if time_of_day = "night" then
    "🌙 Still working? Here\x27s what\x27s urgent:"
  else if time_of_day = "late_night" then
    "🦉 Working late? Just the critical items:"
  else
    "☀️ Good morning! Here\x27s what needs your attention today:"

/-- Day-count phrase of a RED item line.  The source reads
`alert.days_until_due` directly (tiered alerts always carry one; a
missing value would raise in Python, the formatter is fed `getD 0`). -/
def _red_days_text (d : Int) : String :=
  if d < 0 then "⚠️ OVERDUE"
  else if 0 < d then "in " ++ toString d ++ " days"
  else "🔥 TODAY"

/-- A RED item line of the nudge. -/
def _red_item_line (a : Alert) : String :=
  "  • **" ++ a.client_name ++ "**: " ++ a.title ++ " — "
    ++ _red_days_text (a.days_until_due.getD 0)

/-- A YELLOW item line of the nudge (full mode only). -/
def _yellow_item_line (a : Alert) : String :=
  "  • **" ++ a.client_name ++ "**: " ++ a.title ++ " — in "
    ++ toString (a.days_until_due.getD 0) ++ " days"

/-- An aggregate-summary line of the nudge (count, label, plural s). -/
def _aggregate_line (p : String × List String) : String :=
  "  • " ++ toString p.2.length ++ " " ++ p.1
    ++ (if 1 < p.2.length then "s" else "")

/-- The `parts` list assembled by `_format_proactive_nudge` before the
final `"\n".join`. -/
def _format_nudge_parts (red_alerts yellow_alerts : List Alert)
    (aggregate_summary : List (String × List String))
    (time_of_day : String) : List String :=
  let greeting := greeting_for time_of_day
  let is_brief_mode :=
    time_of_day = "late_night" ∨ time_of_day = "night"
      ∨ time_of_day = "evening"
  let is_full_mode :=
    time_of_day = "morning" ∨ time_of_day = "afternoon_early"
  let max_red : Nat := if is_brief_mode then 3 else 5
  let red_section :=
    if red_alerts.isEmpty then []
    else
      ["🔴 **Urgent (≤5 days):**"]
        ++ (red_alerts.take max_red).map _red_item_line
        ++ (if max_red < red_alerts.length then
              ["  • *...and " ++ toString (red_alerts.length - max_red)
                ++ " more urgent items*"]
            else [])
        ++ [""]
  let yellow_section :=
    if yellow_alerts.isEmpty then []
    else if is_full_mode then
      ["🟡 **Coming Up (6-15 days):**"]
        ++ (yellow_alerts.take 3).map _yellow_item_line
        ++ (if 3 < yellow_alerts.length then
              ["  • *...and " ++ toString (yellow_alerts.length - 3)
                ++ " more this fortnight*"]
            else [])
        ++ [""]
    else if ¬ is_brief_mode then
      ["🟡 **" ++ toString yellow_alerts.length
        ++ " items** due in the next 2 weeks", ""]
    else []
  let aggregate_section :=
    if ¬ aggregate_summary.isEmpty ∧ is_full_mode then
      ["📋 **This Month:**"]
        ++ (aggregate_summary.take 4).map _aggregate_line
        ++ [""]
    else []
  let reassurance :=
    if red_alerts.isEmpty ∧ yellow_alerts.isEmpty then
      ["✅ No urgent items right now. You\x27re on top of things!"]
    else []
  [greeting, ""] ++ red_section ++ yellow_section
    ++ aggregate_section ++ reassurance

/-- Embedding of `_format_proactive_nudge`: time-of-day aware rendering of the tiers. -/
def _format_proactive_nudge (red_alerts yellow_alerts : List Alert)
    (aggregate_summary : List (String × List String))
    (time_of_day : String) : String :=
  String.intercalate "\n"
    (_format_nudge_parts red_alerts yellow_alerts aggregate_summary time_of_day)

/-- Result record of `get_proactive_nudge`. -/
structure NudgeResult where
  red_alerts : List Alert
  yellow_alerts : List Alert
  aggregate_alerts : List Alert
  aggregate_summary : List (String × List String)
  formatted_nudge : String
  total_urgent : Nat
  total_warning : Nat
  total_this_month : Nat
  deriving DecidableEq, Repr

/-- End of month used by the aggregate window: first day of the next
month. -/
def end_of_month (today : Date) : Date :=
  if today.month < 12 then ⟨today.year, today.month + 1, 1⟩
  else ⟨today.year + 1, 1, 1⟩

/-- Embedding of `days_left_in_month = (end_of_month - today).days`. -/
def days_left_in_month (today : Date) : Int :=
  date_sub (end_of_month today) today

/-- RED-tier test of the categorisation loop: defined `days_until_due`
with `days <= 5`. -/
def in_red_tier (a : Alert) : Bool :=
  match a.days_until_due with
  | some d => d ≤ 5
  | none => false

/-- YELLOW-tier test: defined `days_until_due`, not RED, `days <= 15`. -/
def in_yellow_tier (a : Alert) : Bool :=
  match a.days_until_due with
  | some d => ¬ d ≤ 5 ∧ d ≤ 15
  | none => false

/-- AGGREGATE-tier test: defined `days_until_due`, not RED or YELLOW,
`days <= days_left_in_month`. -/
def in_aggregate_tier (today : Date) (a : Alert) : Bool :=
  match a.days_until_due with
  | some d => ¬ d ≤ 5 ∧ ¬ d ≤ 15 ∧ d ≤ days_left_in_month today
  | none => false

/-- The dismissal/inactivity filter at the head of
`get_proactive_nudge`. -/
def active_filter (alerts : List Alert)
    (dismissed_alerts inactive_clients : List String) : List Alert :=
  alerts.filter (fun a =>
    ¬ dismissed_alerts.contains a.id
      ∧ ¬ inactive_clients.contains a.client_id)

/-- Embedding of `get_proactive_nudge`: filters dismissed/inactive alerts, partitions
the remainder into RED / YELLOW / AGGREGATE tiers, sorts the
client-facing tiers, and formats the nudge. -/
def get_proactive_nudge (today : Date) (alerts : List Alert)
    (dismissed_alerts inactive_clients : List String)
    (time_of_day : String) : NudgeResult :=
  let active_alerts := active_filter alerts dismissed_alerts inactive_clients
  let red_alerts := active_alerts.filter in_red_tier
  let yellow_alerts := active_alerts.filter in_yellow_tier
  let aggregate_alerts := active_alerts.filter (in_aggregate_tier today)
  let red_sorted := List.insertionSort red_le red_alerts
  let yellow_sorted := List.insertionSort yellow_le yellow_alerts
  let aggregate_summary := _build_aggregate_summary aggregate_alerts
  { red_alerts := red_sorted
    yellow_alerts := yellow_sorted
    aggregate_alerts := aggregate_alerts
    aggregate_summary := aggregate_summary
    formatted_nudge :=
      _format_proactive_nudge red_sorted yellow_sorted aggregate_summary
        time_of_day
    total_urgent := red_sorted.length
    total_warning := yellow_sorted.length
    total_this_month := aggregate_alerts.length }

/-- Embedding of `get_client_nudges`: one client's non-dismissed alerts with a defined
`days_until_due <= 15` (RED and YELLOW tiers), sorted by the RED key.
The inactive-client set is not consulted. -/
def get_client_nudges (client_id : String) (alerts : List Alert)
    (dismissed_alerts : List String) : List Alert :=
  let client_alerts := alerts.filter (fun a =>
    a.client_id == client_id
      && ! dismissed_alerts.contains a.id
      && (match a.days_until_due with
          | some d => d ≤ 15
          | none => false))
  List.insertionSort red_le client_alerts

/-! ## Dismissal store (`services/dismissal_service.py`) -/

/-- The JSON documents `json.load` can produce from the backing file
(objects model the parsed dict, keys unique after last-wins parsing). -/
inductive Json where
  | null
  | bool (b : Bool)
  | num (n : ℚ)
  | str (s : String)
  | arr (items : List Json)
  | obj (fields : List (String × Json))

/-- The Python exception classes that can arise from `_load`:
`IOError` and `json.JSONDecodeError` are the two its `except` clause
catches; `UnicodeDecodeError` (non-UTF-8 bytes read by `json.load`; a
`ValueError` but neither of the caught classes), `AttributeError`
(`data.get` on a non-dict document) and `TypeError` (`set(...)` of a
non-iterable or of unhashable elements) escape it. -/
inductive PyError where
  | io
  | json_decode
  | unicode_decode
  | attribute
  | type_error
  deriving DecidableEq, Repr

/-- Python `data.get(key, default)`: attribute lookup on anything but a
dict raises `AttributeError`. -/
def json_get (data : Json) (key : String) (default : Json) :
    Except PyError Json :=
  match data with
  | .obj fields => .ok ((fields.lookup key).getD default)
  | _ => .error .attribute

/-- Python hashability of a JSON-shaped value: lists and dicts are
unhashable, everything else can be a set member. -/
def Json.hashable : Json → Bool
  | .arr _ => false
  | .obj _ => false
  | _ => true

/-- Python `set(x)` on a JSON-shaped value: a string iterates into its
characters, a dict into its keys, a list into its items (`TypeError` on
an unhashable item); other values are not iterable (`TypeError`).  The
result list models the set — only membership and emptiness are consumed
downstream, so order and multiplicity are immaterial. -/
def py_set : Json → Except PyError (List Json)
  | .str s => .ok (s.toList.map (fun ch => Json.str (String.mk [ch])))
  | .obj fields => .ok (fields.map (fun kv => Json.str kv.1))
  | .arr items =>
    if items.all Json.hashable then .ok items else .error .type_error
  | _ => .error .type_error

/-- In-memory cache of `DismissalService` as `_load` actually leaves it:
the two sets hold whatever hashable values the file supplied, and
`_inactive_client_names` is assigned raw from `data.get` with no
conversion at all. -/
structure DismissalCache where
  dismissed_alerts : List Json
  inactive_clients : List Json
  inactive_client_names : Json

/-- The empty cache set up by `__init__` before `_load` runs (and
re-installed by the `except` branch). -/
def empty_dismissal_cache : DismissalCache :=
  { dismissed_alerts := []
    inactive_clients := []
    inactive_client_names := .obj [] }

/-- The body of `_load`'s `try` block after `json.load`: the three
assignments, each of which may raise (`AttributeError` from `.get`,
`TypeError` from `set`). -/
def _load_body (data : Json) : Except PyError DismissalCache := do
  let d1 ← json_get data "dismissed_alerts" (Json.arr [])
  let dismissed ← py_set d1
  let d2 ← json_get data "inactive_clients" (Json.arr [])
  let inactive ← py_set d2
  let names ← json_get data "inactive_client_names" (Json.obj [])
  return { dismissed_alerts := dismissed
           inactive_clients := inactive
           inactive_client_names := names }

/-- Whether `_load`'s `except (json.JSONDecodeError, IOError)` clause
catches the exception. -/
def _load_catches : PyError → Bool
  | .json_decode => true
  | .io => true
  | _ => false

/-- Embedding of `DismissalService.__init__` followed by `_load`.  The
argument is the outcome of `open` + `json.load` on the backing file:
`none` when the file does not exist, `some (Except.error e)` when
opening or decoding raises `e` (`io`, `json_decode` or
`unicode_decode`), `some (Except.ok data)` when a JSON document was
parsed.  The `try` block continues into the three assignments; only
`json.JSONDecodeError` and `IOError` are caught (resetting the cache to
empty) — every other exception propagates out of `__init__`. -/
def dismissal_init (file : Option (Except PyError Json)) :
    Except PyError DismissalCache :=
  match file with
  | none => .ok empty_dismissal_cache
  | some r =>
    match r >>= _load_body with
    | .ok cache => .ok cache
    | .error e =>
      if _load_catches e then .ok empty_dismissal_cache else .error e

/-! ## Compliance scorer (`services/compliance_service.py`) -/

/-- Embedding of `ComplianceStatus` enum. -/
inductive ComplianceStatus where
  | compliant
  | at_risk
  | non_compliant
  deriving DecidableEq, Repr

/-- The six sub-scores (`scores` dict of
`get_client_compliance_score`). -/
structure ScoreBreakdown where
  annual_review : Int
  risk_profile : Int
  suitability : Int
  contact_frequency : Int
  documentation : Int
  value_demonstrated : Int
  deriving DecidableEq, Repr

/-- Embedding of `months_since = (today - d).days / 30` (float division modelled
exactly in `ℚ`), the local variable of the date-bucketed sub-scores. -/
def months_since (today d : Date) : ℚ :=
  ((date_sub today d : Int) : ℚ) / 30

/-- Embedding of `_score_annual_review`: month-bucket curve over
`months_since (today, last_annual_review)`; 0 when never reviewed. -/
def _score_annual_review (today : Date) (c : Client) : Int :=
  match c.compliance.last_annual_review with
  | none => 0
  | some d =>
    if months_since today d ≤ 10 then 100
    else if months_since today d ≤ 12 then 80
    else if months_since today d ≤ 14 then 50
    else 20

/-- Embedding of `_score_risk_profile`: month-bucket curve with 10/12/18 month
breakpoints; 0 when there is no profile. -/
def _score_risk_profile (today : Date) (c : Client) : Int :=
  match c.risk_profile with
  | none => 0
  | some rp =>
    if months_since today rp.last_assessed ≤ 10 then 100
    else if months_since today rp.last_assessed ≤ 12 then 80
    else if months_since today rp.last_assessed ≤ 18 then 50
    else 20

/-- Embedding of `_score_suitability`: 30 baseline when never confirmed; 50 when
confirmed without a date; 100/70/40 by age of the confirmation. -/
def _score_suitability (today : Date) (c : Client) : Int :=
  if ¬ c.compliance.suitability_confirmed then 30
  else
    match c.compliance.suitability_date with
    | none => 50
    | some d =>
      if months_since today d ≤ 12 then 100
      else if months_since today d ≤ 24 then 70
      else 40

/-- Embedding of `_score_contact_frequency`: 100/80/60/30 at 60/90/180-day
breakpoints; 30 when never contacted. -/
def _score_contact_frequency (today : Date) (c : Client) : Int :=
  match c.days_since_last_contact today with
  | none => 30
  | some days_since =>
    if days_since ≤ 60 then 100
    else if days_since ≤ 90 then 80
    else if days_since ≤ 180 then 60
    else 30

/-- Embedding of `_score_documentation`: additive checklist (+30 meeting notes, +20
recent note, +25 policies, +15 family, +10 concerns), capped at 100. -/
def _score_documentation (today : Date) (c : Client) : Int :=
  let notes_score : Int :=
    match c.meeting_notes.map MeetingNote.meeting_date with
    | [] => 0
    | d :: ds =>
      30 + (if date_sub today (latest_date d ds) ≤ 180 then 20 else 0)
  let score := notes_score
    + (if c.policies.isEmpty then 0 else 25)
    + (if c.family_members.isEmpty then 0 else 15)
    + (if c.concerns.isEmpty then 0 else 10)
  min score 100

/-- Embedding of `_score_value_demonstrated`: by count of logged `value_delivered`
entries. -/
def _score_value_demonstrated (c : Client) : Int :=
  if c.compliance.value_delivered.isEmpty then 20
  else
    let count := c.compliance.value_delivered.length
    if 5 ≤ count then 100
    else if 3 ≤ count then 80
    else if 1 ≤ count then 60
    else 20

/-- The `scores` dict computed by `get_client_compliance_score`. -/
def compliance_breakdown (today : Date) (c : Client) : ScoreBreakdown where
  annual_review := _score_annual_review today c
  risk_profile := _score_risk_profile today c
  suitability := _score_suitability today c
  contact_frequency := _score_contact_frequency today c
  documentation := _score_documentation today c
  value_demonstrated := _score_value_demonstrated c

/-- Embedding of `_identify_issues`: threshold checks over the sub-scores. -/
def _identify_issues (scores : ScoreBreakdown) : List String :=
  (if scores.annual_review < 50 then
    ["Annual review overdue or never completed"] else [])
  ++ (if scores.risk_profile < 50 then ["Risk profile needs updating"] else [])
  ++ (if scores.suitability < 50 then
    ["Suitability confirmation required"] else [])
  ++ (if scores.contact_frequency < 60 then
    ["Insufficient client contact"] else [])
  ++ (if scores.documentation < 50 then ["Documentation incomplete"] else [])
  ++ (if scores.value_demonstrated < 50 then
    ["Need to document value delivered"] else [])

/-- Embedding of `_generate_recommendations`: threshold checks over the sub-scores. -/
def _generate_recommendations (c : Client) (scores : ScoreBreakdown) :
    List String :=
  (if scores.annual_review < 80 then
    ["Schedule annual review with " ++ c.first_name] else [])
  ++ (if scores.risk_profile < 80 then
    ["Reassess risk profile and attitude to risk"] else [])
  ++ (if scores.suitability < 80 then
    ["Review and confirm suitability of current arrangements"] else [])
  ++ (if scores.contact_frequency < 80 then
    ["Reach out to maintain regular contact"] else [])
  ++ (if scores.value_demonstrated < 80 then
    ["Document specific value delivered to client"] else [])

/-- The exact weighted total
`sum(scores[k] * weights[k] / 100 for k in scores)`; every float value
arising there is exactly representable, so `ℚ` models it faithfully. -/
def compliance_total_score (scores : ScoreBreakdown) : ℚ :=
  (scores.annual_review : ℚ) * 25 / 100
    + (scores.risk_profile : ℚ) * 20 / 100
    + (scores.suitability : ℚ) * 20 / 100
    + (scores.contact_frequency : ℚ) * 15 / 100
    + (scores.documentation : ℚ) * 10 / 100
    + (scores.value_demonstrated : ℚ) * 10 / 100

/-- Round-half-to-even on a rational (CPython `round` tie behaviour; the
totals rounded here are exact multiples of 1/2 so ties never reach the
half case anyway). -/
def round_half_even (q : ℚ) : Int :=
  if q - ⌊q⌋ < 1 / 2 then ⌊q⌋
  else if 1 / 2 < q - ⌊q⌋ then ⌊q⌋ + 1
  else if ⌊q⌋ % 2 = 0 then ⌊q⌋ else ⌊q⌋ + 1

/-- Python `round(x, 1)`. -/
def py_round1 (q : ℚ) : ℚ :=
  (round_half_even (q * 10) : ℚ) / 10

/-- Result record of `get_client_compliance_score` (the `weights` echo is
a constant and omitted). -/
structure ComplianceScore where
  overall_score : ℚ
  status : ComplianceStatus
  breakdown : ScoreBreakdown
  issues : List String
  recommendations : List String
  deriving DecidableEq, Repr

/-- Embedding of `get_client_compliance_score`: weighted blend of the six sub-scores,
status thresholds at 80 and 60, issue and recommendation derivation. -/
def get_client_compliance_score (today : Date) (c : Client) : ComplianceScore :=
  let scores := compliance_breakdown today c
  let total_score := compliance_total_score scores
  let status : ComplianceStatus :=
    if 80 ≤ total_score then .compliant
    else if 60 ≤ total_score then .at_risk
    else .non_compliant
  { overall_score := py_round1 total_score
    status := status
    breakdown := scores
    issues := _identify_issues scores
    recommendations := _generate_recommendations c scores }

/-! ## Reference definition from the spec, and concrete fixtures -/

/-- Modelled from the spec: "Overall score = weighted sum" with weights
annual_review 25%, risk_profile 20%, suitability 20%, contact_frequency
15%, documentation 10%, value_demonstrated 10% — the reference
definition the source computation is compared against. -/
def spec_weighted_score (today : Date) (c : Client) : ℚ :=
  (25 * (_score_annual_review today c : ℚ)
    + 20 * (_score_risk_profile today c : ℚ)
    + 20 * (_score_suitability today c : ℚ)
    + 15 * (_score_contact_frequency today c : ℚ)
    + 10 * (_score_documentation today c : ℚ)
    + 10 * (_score_value_demonstrated c : ℚ)) / 100

/-- A fixed "today" for the scenario fixtures: 12 October 2026. -/
def fix_today : Date := ⟨2026, 10, 12⟩

/-- Baseline fixture client: no alert-triggering data at all (birthday in
January, age 46, no policies, follow-ups, events, concerns, interactions,
risk profile or compliance dates). -/
def base_client : Client :=
  { id := "client-001"
    title := "Mr"
    first_name := "James"
    last_name := "Wilson"
    date_of_birth := ⟨1980, 1, 15⟩
    family_members := []
    life_events := []
    concerns := []
    policies := []
    total_portfolio_value := none
    risk_profile := none
    meeting_notes := []
    follow_ups := []
    interactions := []
    compliance := { last_annual_review := none
                    next_review_due := none
                    suitability_confirmed := false
                    suitability_date := none
                    value_delivered := [] } }

/-- Fixture for the follow-up scenario: a single pending follow-up whose
deadline is `fix_today + 2` days. -/
def followup_client : Client :=
  { base_client with
    follow_ups := [{ commitment := "Send pension projection"
                     deadline := ⟨2026, 10, 14⟩
                     status := .pending }] }

/-- The single alert the detector emits for `followup_client`. -/
def followup_alert : Alert :=
  { id := "followup-client-001-Send pension project"
    client_id := "client-001"
    client_name := "Mr James Wilson"
    alert_type := .follow_up_due
    priority := .medium
    title := "📌 Follow-up Due in 2 days"
    due_date := some ⟨2026, 10, 14⟩
    days_until_due := some 2 }

/-- Fixture for the overdue-review scenario: `next_review_due` is
`fix_today - 10` days. -/
def review_client : Client :=
  { base_client with
    id := "client-002"
    compliance := { last_annual_review := some ⟨2025, 10, 2⟩
                    next_review_due := some ⟨2026, 10, 2⟩
                    suitability_confirmed := false
                    suitability_date := none
                    value_delivered := [] } }

/-- The single alert the detector emits for `review_client`. -/
def review_alert : Alert :=
  { id := "review-overdue-client-002"
    client_id := "client-002"
    client_name := "Mr James Wilson"
    alert_type := .annual_review_overdue
    priority := .urgent
    title := "🚨 Annual Review OVERDUE"
    due_date := some ⟨2026, 10, 2⟩
    days_until_due := some (-10) }

/-- Fixture for the birthday-rollover edge: a client born 29 February
2024, scanned on 1 March 2026 (so the birthday month/day is strictly
earlier in the calendar than today's, and 2026 is not a leap year). -/
def feb29_client : Client :=
  { base_client with
    id := "client-003"
    date_of_birth := ⟨2024, 2, 29⟩ }

/-- The scan date for the 29-February fixture. -/
def feb29_today : Date := ⟨2026, 3, 1⟩

/-- Generic fixture alert used for nudge-formatting and aggregation
scenarios. -/
def mk_fix_alert (i : Nat) (d : Int) : Alert :=
  { id := "alert-" ++ toString i
    client_id := "c" ++ toString i
    client_name := "Client " ++ toString i
    alert_type := .follow_up_due
    priority := .high
    title := "Item " ++ toString i
    due_date := none
    days_until_due := some d }

/-- Four RED alerts (1–4 days out) for the late-night formatting
scenario. -/
def fix_red_alerts : List Alert :=
  [mk_fix_alert 1 1, mk_fix_alert 2 2, mk_fix_alert 3 3, mk_fix_alert 4 4]

/-- Ten YELLOW alerts (6–15 days out) for the late-night formatting
scenario. -/
def fix_yellow_alerts : List Alert :=
  (List.range 10).map (fun i => mk_fix_alert (10 + i) (6 + (i : Int)))

/-- A non-empty aggregate summary for the late-night formatting scenario
(so the absence of the aggregate section is not vacuous). -/
def fix_aggregate_summary : List (String × List String) :=
  [("Birthday", ["Client 20"])]

/-- The YELLOW bare-count line `_format_proactive_nudge` would emit for
ten YELLOW alerts in a non-full, non-brief bucket. -/
def yellow_count_line_10 : String :=
  "🟡 **10 items** due in the next 2 weeks"

/-- An alert belonging to a client that will be marked inactive in the
summary counterexample. -/
def inactive_fix_alert : Alert := mk_fix_alert 7 3

/-- The inactive-client set for the summary counterexample: exactly the
client of `inactive_fix_alert`. -/
def fix_inactive_clients : List String := ["c7"]

/-- Fixture client for the undated-suitability witness: suitability
confirmed but `suitability_date` absent. -/
def undated_suitability_client : Client :=
  { base_client with
    id := "client-004"
    compliance := { last_annual_review := none
                    next_review_due := none
                    suitability_confirmed := true
                    suitability_date := none
                    value_delivered := [] } }

/-! # Theorems -/

set_option maxRecDepth 100000

/-! ## Helper lemmas -/

theorem mem_active_filter {alerts : List Alert} {dis inact : List String}
    {a : Alert} :
    a ∈ active_filter alerts dis inact ↔
      a ∈ alerts ∧ a.id ∉ dis ∧ a.client_id ∉ inact := by
  simp [active_filter, List.mem_filter, List.contains]

theorem red_alerts_eq (today : Date) (alerts : List Alert)
    (dis inact : List String) (tod : String) :
    (get_proactive_nudge today alerts dis inact tod).red_alerts
      = List.insertionSort red_le
          ((active_filter alerts dis inact).filter in_red_tier) := rfl

theorem yellow_alerts_eq (today : Date) (alerts : List Alert)
    (dis inact : List String) (tod : String) :
    (get_proactive_nudge today alerts dis inact tod).yellow_alerts
      = List.insertionSort yellow_le
          ((active_filter alerts dis inact).filter in_yellow_tier) := rfl

theorem aggregate_alerts_eq (today : Date) (alerts : List Alert)
    (dis inact : List String) (tod : String) :
    (get_proactive_nudge today alerts dis inact tod).aggregate_alerts
      = (active_filter alerts dis inact).filter (in_aggregate_tier today) := rfl

/-! ## C1: tier-partition invariant of the proactive nudge -/

/-- C1: for every alert list, dismissed-id set and inactive-id set, every
non-dismissed, non-inactive alert with a defined `days_until_due = d` is
placed by `get_proactive_nudge` in the RED tier exactly when `d ≤ 5`
(including all negative/overdue values), in the YELLOW tier exactly when
`6 ≤ d ≤ 15`, in the AGGREGATE tier exactly when
`15 < d ≤ days_left_in_month` (the days remaining in the current
calendar month), and hence in exactly one tier — or none when `d` is
beyond the aggregate window; an alert with `days_until_due` undefined
appears in no tier. -/
theorem tier_partition_of_active_alert
    (today : Date) (alerts : List Alert)
    (dismissed_alerts inactive_clients : List String)
    (time_of_day : String) (a : Alert)
    (ha : a ∈ alerts) (hd : a.id ∉ dismissed_alerts)
    (hc : a.client_id ∉ inactive_clients) :
    (∀ d : Int, a.days_until_due = some d →
      ((a ∈ (get_proactive_nudge today alerts dismissed_alerts
              inactive_clients time_of_day).red_alerts ↔ d ≤ 5)
        ∧ (a ∈ (get_proactive_nudge today alerts dismissed_alerts
              inactive_clients time_of_day).yellow_alerts ↔ 6 ≤ d ∧ d ≤ 15)
        ∧ (a ∈ (get_proactive_nudge today alerts dismissed_alerts
              inactive_clients time_of_day).aggregate_alerts ↔
              15 < d ∧ d ≤ days_left_in_month today)))
    ∧ (a.days_until_due = none →
        a ∉ (get_proactive_nudge today alerts dismissed_alerts
              inactive_clients time_of_day).red_alerts
        ∧ a ∉ (get_proactive_nudge today alerts dismissed_alerts
              inactive_clients time_of_day).yellow_alerts
        ∧ a ∉ (get_proactive_nudge today alerts dismissed_alerts
              inactive_clients time_of_day).aggregate_alerts) := by
  have hmem : a ∈ active_filter alerts dismissed_alerts inactive_clients :=
    mem_active_filter.mpr ⟨ha, hd, hc⟩
  constructor
  · intro d hdays
    refine ⟨?_, ?_, ?_⟩
    · rw [red_alerts_eq, List.mem_insertionSort, List.mem_filter]
      simp [in_red_tier, hdays, hmem]
    · rw [yellow_alerts_eq, List.mem_insertionSort, List.mem_filter]
      simp only [in_yellow_tier, hdays, hmem, true_and, decide_eq_true_eq]
      omega
    · rw [aggregate_alerts_eq, List.mem_filter]
      simp only [in_aggregate_tier, hdays, hmem, true_and, decide_eq_true_eq]
      omega
  · intro hnone
    refine ⟨?_, ?_, ?_⟩
    · rw [red_alerts_eq, List.mem_insertionSort, List.mem_filter]
      simp [in_red_tier, hnone]
    · rw [yellow_alerts_eq, List.mem_insertionSort, List.mem_filter]
      simp [in_yellow_tier, hnone]
    · rw [aggregate_alerts_eq, List.mem_filter]
      simp [in_aggregate_tier, hnone]

/-- Witness for C1 at a concrete input: an alert three days out, not
dismissed, not inactive, lands exactly in the RED tier. -/
theorem tier_partition_of_active_alert_witness :
    (mk_fix_alert 1 3 ∈ [mk_fix_alert 1 3]
      ∧ (mk_fix_alert 1 3).id ∉ ([] : List String)
      ∧ (mk_fix_alert 1 3).client_id ∉ ([] : List String))
    ∧ ((∀ d : Int, (mk_fix_alert 1 3).days_until_due = some d →
        ((mk_fix_alert 1 3 ∈ (get_proactive_nudge fix_today [mk_fix_alert 1 3]
              [] [] "morning").red_alerts ↔ d ≤ 5)
          ∧ (mk_fix_alert 1 3 ∈ (get_proactive_nudge fix_today [mk_fix_alert 1 3]
              [] [] "morning").yellow_alerts ↔ 6 ≤ d ∧ d ≤ 15)
          ∧ (mk_fix_alert 1 3 ∈ (get_proactive_nudge fix_today [mk_fix_alert 1 3]
              [] [] "morning").aggregate_alerts ↔
              15 < d ∧ d ≤ days_left_in_month fix_today)))
      ∧ ((mk_fix_alert 1 3).days_until_due = none →
          mk_fix_alert 1 3 ∉ (get_proactive_nudge fix_today [mk_fix_alert 1 3]
              [] [] "morning").red_alerts
          ∧ mk_fix_alert 1 3 ∉ (get_proactive_nudge fix_today [mk_fix_alert 1 3]
              [] [] "morning").yellow_alerts
          ∧ mk_fix_alert 1 3 ∉ (get_proactive_nudge fix_today [mk_fix_alert 1 3]
              [] [] "morning").aggregate_alerts)) :=
  ⟨⟨by decide, by decide, by decide⟩,
    tier_partition_of_active_alert fix_today [mk_fix_alert 1 3] [] [] "morning"
      (mk_fix_alert 1 3) (by decide) (by decide) (by decide)⟩

/-! ## C3: inactive-client exclusion -/

/-- C3 counterexample: `get_alert_summary` does not itself filter by the
inactive set — fed a list holding one alert of a client in the inactive
set, its counts include that alert (total 1, not 0).  (In `app.py` the
caller pre-filters the list before calling it.) -/
theorem summary_counts_inactive_alert :
    inactive_fix_alert.client_id ∈ fix_inactive_clients
    ∧ (get_alert_summary fix_today [inactive_fix_alert]).total = 1
    ∧ (get_alert_summary fix_today [inactive_fix_alert]).high = 1 := by
  refine ⟨by decide, rfl, by decide⟩

/-- C3 amended: `get_proactive_nudge` itself excludes every alert of an
inactive client from all three tiers (and hence from the aggregate
summary, which is built from the aggregate tier), for every alert list
and every dismissed set; `get_alert_summary` and `get_client_nudges`
perform no inactive filtering of their own — their callers pre-filter. -/
theorem nudge_excludes_inactive
    (today : Date) (alerts : List Alert)
    (dismissed_alerts inactive_clients : List String)
    (time_of_day : String) (a : Alert)
    (hc : a.client_id ∈ inactive_clients) :
    a ∉ (get_proactive_nudge today alerts dismissed_alerts
          inactive_clients time_of_day).red_alerts
    ∧ a ∉ (get_proactive_nudge today alerts dismissed_alerts
          inactive_clients time_of_day).yellow_alerts
    ∧ a ∉ (get_proactive_nudge today alerts dismissed_alerts
          inactive_clients time_of_day).aggregate_alerts := by
  have key : a ∉ active_filter alerts dismissed_alerts inactive_clients := by
    intro h
    exact (mem_active_filter.mp h).2.2 hc
  refine ⟨fun h => ?_, fun h => ?_, fun h => ?_⟩
  · rw [red_alerts_eq, List.mem_insertionSort, List.mem_filter] at h
    exact key h.1
  · rw [yellow_alerts_eq, List.mem_insertionSort, List.mem_filter] at h
    exact key h.1
  · rw [aggregate_alerts_eq, List.mem_filter] at h
    exact key h.1

/-- Witness for C3 (amended) at a concrete input: the inactive client's
RED-window alert appears in no tier of the nudge. -/
theorem nudge_excludes_inactive_witness :
    inactive_fix_alert.client_id ∈ fix_inactive_clients
    ∧ (inactive_fix_alert ∉ (get_proactive_nudge fix_today
          [inactive_fix_alert] [] fix_inactive_clients "morning").red_alerts
      ∧ inactive_fix_alert ∉ (get_proactive_nudge fix_today
          [inactive_fix_alert] [] fix_inactive_clients "morning").yellow_alerts
      ∧ inactive_fix_alert ∉ (get_proactive_nudge fix_today
          [inactive_fix_alert] [] fix_inactive_clients "morning").aggregate_alerts) :=
  ⟨by decide,
    nudge_excludes_inactive fix_today [inactive_fix_alert] []
      fix_inactive_clients "morning" inactive_fix_alert (by decide)⟩

/-! ## C9: per-client nudge extraction -/

/-- C9: `get_client_nudges` returns exactly the given client's alerts
whose id is not dismissed and whose `days_until_due` is defined and at
most 15; the inactive-client set plays no role — even when the client is
marked inactive the characterisation is unchanged (the function never
consults inactivity). -/
theorem client_nudges_characterisation
    (client_id : String) (alerts : List Alert)
    (dismissed_alerts inactive_clients : List String)
    (_hinact : client_id ∈ inactive_clients) (a : Alert) :
    a ∈ get_client_nudges client_id alerts dismissed_alerts ↔
      (a ∈ alerts ∧ a.client_id = client_id ∧ a.id ∉ dismissed_alerts
        ∧ ∃ d : Int, a.days_until_due = some d ∧ d ≤ 15) := by
  unfold get_client_nudges
  rw [List.mem_insertionSort, List.mem_filter]
  cases hdd : a.days_until_due with
  | none => simp [hdd, List.contains]
  | some d => simp [hdd, List.contains, and_assoc]

/-- Witness for C9 at a concrete input: the client is in the inactive
set, yet its RED-window alert still satisfies the characterisation. -/
theorem client_nudges_characterisation_witness :
    ("c7" ∈ fix_inactive_clients)
    ∧ (inactive_fix_alert ∈ get_client_nudges "c7" [inactive_fix_alert] [] ↔
        (inactive_fix_alert ∈ [inactive_fix_alert]
          ∧ inactive_fix_alert.client_id = "c7"
          ∧ inactive_fix_alert.id ∉ ([] : List String)
          ∧ ∃ d : Int, inactive_fix_alert.days_until_due = some d ∧ d ≤ 15)) :=
  ⟨by decide,
    client_nudges_characterisation "c7" [inactive_fix_alert] []
      fix_inactive_clients (by decide) inactive_fix_alert⟩

/-! ## C2: pending follow-up due in two days -/

/-- C2 counterexample: for a client whose only alert-triggering datum is
a single pending follow-up with deadline `today + 2` days, the detector
emits exactly one `follow_up_due` alert — but its priority is not high
(the source grants high only when the follow-up is due today). -/
theorem followup_two_days_not_high :
    generate_all_alerts fix_today [followup_client] = Except.ok [followup_alert]
    ∧ followup_alert.priority ≠ AlertPriority.high := ⟨rfl, by decide⟩

/-- C2 amended: the same scenario emits exactly one alert with
`alert_type = follow_up_due`, priority medium (high is reserved for
follow-ups due today) and `days_until_due = 2`. -/
theorem followup_two_days_scenario :
    generate_all_alerts fix_today [followup_client] = Except.ok [followup_alert]
    ∧ followup_alert.alert_type = AlertType.follow_up_due
    ∧ followup_alert.priority = AlertPriority.medium
    ∧ followup_alert.days_until_due = some 2 := ⟨rfl, rfl, rfl, rfl⟩

/-! ## C6: overdue annual review -/

/-- C6: for a client whose only alert-triggering datum is
`compliance.next_review_due = today − 10` days, the detector emits
exactly one alert with `alert_type = annual_review_overdue`, priority
urgent and `days_until_due = −10`. -/
theorem annual_review_overdue_scenario :
    generate_all_alerts fix_today [review_client] = Except.ok [review_alert]
    ∧ review_alert.alert_type = AlertType.annual_review_overdue
    ∧ review_alert.priority = AlertPriority.urgent
    ∧ review_alert.days_until_due = some (-10) := ⟨rfl, rfl, rfl, rfl⟩

/-! ## C7: birthday rollover -/

/-- C7 failing input: a client born 29 February 2024 scanned on
1 March 2026 — the birthday month/day is strictly earlier in the
calendar than today's, but `date.replace(year=2026)` raises `ValueError`
(2026 is not a leap year), so the birthday rule aborts the whole scan
instead of evaluating the window against a next-year occurrence. -/
theorem birthday_scan_raises_on_feb29 :
    _check_birthday feb29_today feb29_client = Except.error ()
    ∧ generate_all_alerts feb29_today [feb29_client] = Except.error () :=
  ⟨rfl, rfl⟩

/-! ## C4: late-night nudge formatting -/

/-- C4 counterexample: at the `late_night` bucket with 4 RED and 10
YELLOW alerts, the formatted nudge contains no bare-count line for the
YELLOW items — the count line is emitted only in non-full, non-brief
buckets (`elif not is_brief_mode`), and `late_night` is a brief bucket. -/
theorem late_night_nudge_missing_yellow_count :
    fix_red_alerts.length = 4
    ∧ fix_yellow_alerts.length = 10
    ∧ yellow_count_line_10 ∉
        _format_nudge_parts fix_red_alerts fix_yellow_alerts
          fix_aggregate_summary "late_night" := ⟨rfl, rfl, by decide⟩

/-- C4 amended: at `late_night` with 4 RED and 10 YELLOW alerts (and a
non-empty aggregate summary), the nudge renders the greeting, exactly 3
RED item lines followed by an "...and 1 more" truncation line, no YELLOW
content of any kind (brief buckets omit even the bare count), and no
aggregate ("This Month") section; `_format_proactive_nudge` joins these
lines with newlines. -/
theorem late_night_nudge_brief_rendering :
    _format_nudge_parts fix_red_alerts fix_yellow_alerts
        fix_aggregate_summary "late_night"
      = ["🦉 Working late? Just the critical items:", "",
         "🔴 **Urgent (≤5 days):**",
         "  • **Client 1**: Item 1 — in 1 days",
         "  • **Client 2**: Item 2 — in 2 days",
         "  • **Client 3**: Item 3 — in 3 days",
         "  • *...and 1 more urgent items*", ""]
    ∧ _format_proactive_nudge fix_red_alerts fix_yellow_alerts
        fix_aggregate_summary "late_night"
      = String.intercalate "\n"
          (_format_nudge_parts fix_red_alerts fix_yellow_alerts
            fix_aggregate_summary "late_night") := ⟨rfl, rfl⟩

/-! ## C8: dismissal store corruption recovery -/

/-- C8: the claim holds only for corruption surfacing as the two caught
exception classes.  Evaluating the embedding at failing inputs: a
backing file whose content is the valid JSON document `[]` (wrong shape)
makes initialisation raise `AttributeError`; non-UTF-8 bytes make it
raise `UnicodeDecodeError`; a document whose `dismissed_alerts` value is
a number makes it raise `TypeError` — in each case startup blocks
instead of recovering.  A `json.JSONDecodeError` or `IOError` is caught
and does yield the empty state. -/
theorem dismissal_init_corrupt_content :
    dismissal_init (some (Except.ok (Json.arr [])))
      = Except.error PyError.attribute
    ∧ dismissal_init (some (Except.error PyError.unicode_decode))
      = Except.error PyError.unicode_decode
    ∧ dismissal_init (some (Except.ok
        (Json.obj [("dismissed_alerts", Json.num 42)])))
      = Except.error PyError.type_error
    ∧ dismissal_init (some (Except.error PyError.json_decode))
      = Except.ok empty_dismissal_cache
    ∧ dismissal_init (some (Except.error PyError.io))
      = Except.ok empty_dismissal_cache :=
  ⟨rfl, rfl, rfl, rfl, rfl⟩

/-! ## C10: suitability confirmed without a date -/

/-- C10: for every client with `suitability_confirmed = true` but
`suitability_date` absent, the suitability sub-score is 50 — a value
distinct from the never-confirmed baseline 30 and from every dated
branch (100/70/40), strictly between the baseline and the top dated
scores. -/
theorem suitability_confirmed_undated_score
    (today : Date) (c : Client)
    (hconf : c.compliance.suitability_confirmed = true)
    (hdate : c.compliance.suitability_date = none) :
    _score_suitability today c = 50
    ∧ 30 < _score_suitability today c
    ∧ _score_suitability today c < 100
    ∧ _score_suitability today c ≠ 30
    ∧ _score_suitability today c ≠ 100
    ∧ _score_suitability today c ≠ 70
    ∧ _score_suitability today c ≠ 40 := by
  have h : _score_suitability today c = 50 := by
    simp [_score_suitability, hconf, hdate]
  refine ⟨h, ?_, ?_, ?_, ?_, ?_, ?_⟩ <;> rw [h] <;> decide

/-- Witness for C10 at a concrete client with confirmed but undated
suitability. -/
theorem suitability_confirmed_undated_score_witness :
    undated_suitability_client.compliance.suitability_confirmed = true
    ∧ undated_suitability_client.compliance.suitability_date = none
    ∧ _score_suitability fix_today undated_suitability_client = 50 :=
  ⟨rfl, rfl,
    (suitability_confirmed_undated_score fix_today undated_suitability_client
      rfl rfl).1⟩

/-! ## C5: compliance weighted score and status thresholds -/

theorem dvd10_score_annual_review (today : Date) (c : Client) :
    (10 : ℤ) ∣ _score_annual_review today c := by
  unfold _score_annual_review
  split
  · exact ⟨0, rfl⟩
  · split_ifs <;> decide

theorem dvd10_score_contact_frequency (today : Date) (c : Client) :
    (10 : ℤ) ∣ _score_contact_frequency today c := by
  unfold _score_contact_frequency
  split
  · decide
  · split_ifs <;> decide

theorem round_half_even_intCast (n : ℤ) :
    round_half_even (n : ℚ) = n := by
  unfold round_half_even
  rw [Int.floor_intCast, sub_self]
  norm_num

theorem compliance_total_score_tenth (scores : ScoreBreakdown)
    (ha : (10 : ℤ) ∣ scores.annual_review)
    (hc : (10 : ℤ) ∣ scores.contact_frequency) :
    ∃ n : ℤ, compliance_total_score scores = (n : ℚ) / 10 := by
  obtain ⟨a0, ha0⟩ := ha
  obtain ⟨c0, hc0⟩ := hc
  refine ⟨25 * a0 + 2 * scores.risk_profile + 2 * scores.suitability
    + 15 * c0 + scores.documentation + scores.value_demonstrated, ?_⟩
  unfold compliance_total_score
  rw [ha0, hc0]
  push_cast
  ring

theorem py_round1_total (scores : ScoreBreakdown)
    (ha : (10 : ℤ) ∣ scores.annual_review)
    (hc : (10 : ℤ) ∣ scores.contact_frequency) :
    py_round1 (compliance_total_score scores) = compliance_total_score scores := by
  obtain ⟨n, hn⟩ := compliance_total_score_tenth scores ha hc
  rw [hn]
  unfold py_round1
  have h10 : ((n : ℚ) / 10) * 10 = (n : ℚ) := by
    field_simp
  rw [h10, round_half_even_intCast]

theorem compliance_status_iffs (t : ℚ) :
    ((if 80 ≤ t then ComplianceStatus.compliant
      else if 60 ≤ t then ComplianceStatus.at_risk
      else ComplianceStatus.non_compliant) = ComplianceStatus.compliant
        ↔ 80 ≤ t)
    ∧ ((if 80 ≤ t then ComplianceStatus.compliant
        else if 60 ≤ t then ComplianceStatus.at_risk
        else ComplianceStatus.non_compliant) = ComplianceStatus.at_risk
          ↔ 60 ≤ t ∧ t < 80)
    ∧ ((if 80 ≤ t then ComplianceStatus.compliant
        else if 60 ≤ t then ComplianceStatus.at_risk
        else ComplianceStatus.non_compliant) = ComplianceStatus.non_compliant
          ↔ t < 60) := by
  split_ifs with h1 h2
  · exact ⟨⟨fun _ => h1, fun _ => rfl⟩,
      ⟨fun h => absurd h (by decide),
        fun h => absurd h1 (not_le.mpr h.2)⟩,
      ⟨fun h => absurd h (by decide),
        fun h => absurd h1 (not_le.mpr (by linarith))⟩⟩
  · exact ⟨⟨fun h => absurd h (by decide), fun h => absurd h h1⟩,
      ⟨fun _ => ⟨h2, not_le.mp h1⟩, fun _ => rfl⟩,
      ⟨fun h => absurd h (by decide),
        fun h => absurd h2 (not_le.mpr h)⟩⟩
  · exact ⟨⟨fun h => absurd h (by decide), fun h => absurd h h1⟩,
      ⟨fun h => absurd h (by decide), fun h => absurd h.1 h2⟩,
      ⟨fun _ => not_le.mp h2, fun _ => rfl⟩⟩

/-- C5: for every client, the compliance `overall_score` equals the
spec's weighted sum of the six sub-scores (weights 25/20/20/15/10/10 %;
the `round(total, 1)` in the source is exact because every achievable
total is a multiple of 1/2), and the returned status is `compliant`
exactly when `overall_score ≥ 80`, `at_risk` exactly when
`60 ≤ overall_score < 80`, and `non_compliant` exactly when
`overall_score < 60`. -/
theorem compliance_score_weighted_sum_and_status (today : Date) (c : Client) :
    (get_client_compliance_score today c).overall_score
      = spec_weighted_score today c
    ∧ ((get_client_compliance_score today c).status = ComplianceStatus.compliant
        ↔ 80 ≤ (get_client_compliance_score today c).overall_score)
    ∧ ((get_client_compliance_score today c).status = ComplianceStatus.at_risk
        ↔ 60 ≤ (get_client_compliance_score today c).overall_score
          ∧ (get_client_compliance_score today c).overall_score < 80)
    ∧ ((get_client_compliance_score today c).status = ComplianceStatus.non_compliant
        ↔ (get_client_compliance_score today c).overall_score < 60) := by
  have hround : (get_client_compliance_score today c).overall_score
      = compliance_total_score (compliance_breakdown today c) :=
    py_round1_total (compliance_breakdown today c)
      (dvd10_score_annual_review today c)
      (dvd10_score_contact_frequency today c)
  have hstatus : (get_client_compliance_score today c).status
      = (if 80 ≤ compliance_total_score (compliance_breakdown today c)
          then ComplianceStatus.compliant
          else if 60 ≤ compliance_total_score (compliance_breakdown today c)
          then ComplianceStatus.at_risk
          else ComplianceStatus.non_compliant) := rfl
  obtain ⟨h1, h2, h3⟩ :=
    compliance_status_iffs (compliance_total_score (compliance_breakdown today c))
  refine ⟨?_, ?_, ?_, ?_⟩
  · rw [hround]
    unfold compliance_total_score spec_weighted_score compliance_breakdown
    ring
  · rw [hround, hstatus]
    exact h1
  · rw [hround, hstatus]
    exact h2
  · rw [hround, hstatus]
    exact h3
